import Mathlib

/-!
Verification development for the health-recommendation-system backend
(src/app.py).  The Flask handlers are shallowly embedded as pure Lean
functions over an explicit database state; every handler additionally
returns the list of observable effects (connection open/close, table
writes and deletes, external service calls, the HTTP response) so that
ordering and resource-safety properties can be stated.  External
collaborators (the three prediction integrations and the werkzeug
password-hash functions) are opaque in the source and are therefore
passed in as function parameters.  Timestamps are modelled as integers
(seconds); the ISO round-trip datetime.isoformat / datetime.fromisoformat
is modelled by the `ExpVal.valid` constructor, with separate constructors
for empty/null and non-empty unparseable stored values.
-/

namespace HealthApp

/-- JSON-like value appearing in request payloads (request.get_json). -/
inductive JVal where
  | null : JVal
  | bool : Bool → JVal
  | num : Int → JVal
  | str : String → JVal
  | list : List JVal → JVal

/-- Python truthiness of a JSON value (used by `or []` and `if not x`). -/
def JVal.truthy : JVal → Bool
  | .null => false
  | .bool b => b
  | .num n => n != 0
  | .str s => s != ""
  | .list xs => !xs.isEmpty

mutual

/-- Python str() applied to a JSON value, as used by `[str(s) for s in symptoms_input]`.
The exact rendering of nested values is irrelevant to the claims; scalars follow Python. -/
def pyStr : JVal → String
  | .null => "None"
  | .bool true => "True"
  | .bool false => "False"
  | .num n => toString n
  | .str s => s
  | .list xs => "[" ++ String.intercalate ", " (pyStrList xs) ++ "]"

/-- Elementwise str() over a JSON list. -/
def pyStrList : List JVal → List String
  | [] => []
  | x :: xs => pyStr x :: pyStrList xs

end

/-- Minimal JSON string escaping (backslash and double quote). -/
def jsonEscape (s : String) : String :=
  String.mk (s.data.flatMap fun c =>
    if c = '\\' then ['\\', '\\']
    else if c = '"' then ['\\', '"']
    else [c])

/-- json.dumps of a single string. -/
def jsonStr (s : String) : String := "\"" ++ jsonEscape s ++ "\""

/-- json.dumps of a list of strings (default separators). -/
def jsonDumpsStrList (xs : List String) : String :=
  "[" ++ String.intercalate ", " (xs.map jsonStr) ++ "]"

mutual

/-- json.dumps of a JSON value (shape irrelevant to the claims beyond strings). -/
def jsonDumps : JVal → String
  | .null => "null"
  | .bool true => "true"
  | .bool false => "false"
  | .num n => toString n
  | .str s => jsonStr s
  | .list xs => "[" ++ String.intercalate ", " (jsonDumpsList xs) ++ "]"

/-- Elementwise json.dumps over a JSON list. -/
def jsonDumpsList : List JVal → List String
  | [] => []
  | x :: xs => jsonDumps x :: jsonDumpsList xs

end

/-- Whitespace characters stripped by Python str.strip(). -/
def isPySpace (c : Char) : Bool :=
  c = ' ' || c = '\t' || c = '\n' || c = '\r' || c = '\x0b' || c = '\x0c'

/-- Python str.split on a comma: the list of maximal comma-free segments,
with empty segments kept (s.split always yields at least one segment). -/
def splitOnComma : List Char → List (List Char)
  | [] => [[]]
  | ',' :: rest => [] :: splitOnComma rest
  | c :: rest =>
    match splitOnComma rest with
    | [] => [[c]]
    | g :: gs => (c :: g) :: gs

/-- Python str.strip(): drop whitespace from both ends. -/
def stripChars (cs : List Char) : List Char :=
  ((cs.dropWhile isPySpace).reverse.dropWhile isPySpace).reverse

/-- Comma split with whitespace strip and empty entries dropped, as in
`[s.strip() for s in symptoms_input.split(",") if s.strip()]`. -/
def splitStripDrop (s : String) : List String :=
  (((splitOnComma s.data).map (fun g => String.mk (stripChars g))).filter
    (fun t => t != ""))

/-- Normalization of the symptoms payload from predict_disease
(src/app.py lines 220-229): `data.get("symptoms", []) or []`, then
list elements are stringified, a string is comma-split, anything else
becomes the empty list. -/
def normalizeSymptoms (symptomsField : Option JVal) : List String :=
  let v0 := (symptomsField.getD (JVal.list []))
  let v := if v0.truthy then v0 else JVal.list []
  match v with
  | .list xs => pyStrList xs
  | .str s => splitStripDrop s
  | _ => []

/-! ## Observable effects

Each modelled handler returns, besides the response and the new database,
the ordered list of its observable effects: connection open/close, table
inserts and deletes, external service calls, and the final response. -/

/-- Observable effect of a handler. -/
inductive Ev where
  | authCheck (ok : Bool)
  | dbOpen
  | dbWrite (table : String)
  | dbDelete (table : String)
  | dbClose
  | extCall (service : String)
  | respond (status : Nat)
deriving Repr, DecidableEq

/-- Effect trace of `execute_query` (src/app.py lines 74-88): a connection is
opened, the statement runs (raising or producing its effects), and the
`finally` block closes the connection in either case. -/
def execute_query (opEvents : List Ev) (raises : Bool) : List Ev :=
  [Ev.dbOpen] ++ (if raises then [] else opEvents) ++ [Ev.dbClose]

/-! ## Database state -/

/-- Stored `expires_at` column value: the table stores TEXT, which is either
falsy (NULL or empty), a non-empty string that datetime.fromisoformat
rejects, or a parseable ISO timestamp modelled as an integer. -/
inductive ExpVal where
  | empty : ExpVal
  | badFormat : String → ExpVal
  | valid : Int → ExpVal
deriving Repr, DecidableEq

/-- Row of the users table. -/
structure UserRow where
  id : Nat
  username : String
  email : String
  password_hash : String
deriving Repr, DecidableEq

/-- Row of the user_sessions table. -/
structure SessionRow where
  user_id : Nat
  session_token : String
  expires_at : ExpVal
deriving Repr, DecidableEq

/-- Row of the physical_health_inputs table. -/
structure PhysRow where
  id : Nat
  user_id : Nat
  age : Option JVal
  gender : Option JVal
  height : Option JVal
  weight : Option JVal
  blood_pressure_systolic : Option JVal
  blood_pressure_diastolic : Option JVal
  cholesterol_level : Option JVal
  blood_sugar_level : Option JVal
  symptoms : String
  family_history : Option JVal
  lifestyle_factors : Option String

/-- Row of the disease_predictions table. -/
structure PredRow where
  user_id : Nat
  health_input_id : Nat
  predicted_diseases : String
  risk_level : JVal
  confidence_score : Int
  recommendations : String

/-- Row of the mental_health_responses table. -/
structure MHRespRow where
  user_id : Nat
  question_id : Option JVal
  answer : Option JVal
  score : JVal

/-- Row of the mental_health_assessments table. -/
structure MHAssessRow where
  user_id : Nat
  total_score : Int
  assessment_type : String
  risk_level : Option JVal
  recommendations : String

/-- Row of the diet_plans table. -/
structure DietRow where
  user_id : Nat
  fitness_profile_id : Option JVal
  plan_name : String
  plan_type : String
  daily_calories : Option JVal
  macronutrients : Option String
  meal_plan : Option String
  duration_weeks : JVal

/-- Row of the exercise_routines table. -/
structure ExRow where
  user_id : Nat
  fitness_profile_id : Option JVal
  routine_name : String
  routine_type : String
  exercises : Option String
  duration_minutes : Option JVal
  difficulty_level : Option JVal
  frequency_per_week : Option JVal

/-- The database: one list of rows per table touched by the handlers. -/
structure DB where
  users : List UserRow
  user_sessions : List SessionRow
  physical_health_inputs : List PhysRow
  disease_predictions : List PredRow
  mental_health_responses : List MHRespRow
  mental_health_assessments : List MHAssessRow
  diet_plans : List DietRow
  exercise_routines : List ExRow

/-- HTTP response: status code and body (for error bodies, the message). -/
structure Resp where
  status : Nat
  body : String
deriving Repr, DecidableEq

/-- Flask cookie session contents used by the app. -/
structure Cookie where
  user_id : Option Nat
  session_token : Option String
deriving Repr, DecidableEq

/-- Python truthiness of session.get result for the numeric user_id
(None and 0 are falsy). -/
def natTruthy : Option Nat → Bool
  | none => false
  | some n => n != 0

/-- Python truthiness of session.get result for a string field
(None and the empty string are falsy). -/
def strTruthy : Option String → Bool
  | none => false
  | some s => s != ""

/-- fetchone of SELECT * FROM user_sessions WHERE user_id = ? AND session_token = ?. -/
def findSession (db : DB) (uid : Nat) (tok : String) : Option SessionRow :=
  db.user_sessions.find? (fun r => r.user_id == uid && r.session_token == tok)

/-- DELETE FROM user_sessions WHERE user_id = ? AND session_token = ?. -/
def deleteSession (db : DB) (uid : Nat) (tok : String) : DB :=
  { db with user_sessions :=
      db.user_sessions.filter (fun r => !(r.user_id == uid && r.session_token == tok)) }

/-- Result of check_auth: the boolean outcome, the database after the call
(an expired session row may have been deleted), and the effect trace. -/
structure AuthOut where
  ok : Bool
  db : DB
  tr : List Ev

/-- check_auth (src/app.py lines 171-208): requires a truthy user_id and
session_token in the cookie session, a matching user_sessions row, and a
not-yet-expired timestamp; an expired row is deleted and the check fails;
a falsy or unparseable expires_at is accepted. -/
def check_auth (cookie : Cookie) (now : Int) (db : DB) : AuthOut :=
  if natTruthy cookie.user_id && strTruthy cookie.session_token then
    match findSession db (cookie.user_id.getD 0) (cookie.session_token.getD "") with
    | none => ⟨false, db, execute_query [] false⟩
    | some row =>
      match row.expires_at with
      | .empty => ⟨true, db, execute_query [] false⟩
      | .badFormat _ => ⟨true, db, execute_query [] false⟩
      | .valid t =>
        if now > t then
          ⟨false, deleteSession db (cookie.user_id.getD 0) (cookie.session_token.getD ""),
            execute_query [] false ++ execute_query [Ev.dbDelete "user_sessions"] false⟩
        else ⟨true, db, execute_query [] false⟩
  else ⟨false, db, []⟩

/-! ## Auth endpoints -/

/-- Generic handler result: response, database after the handler, and the
effect trace. -/
structure HOut where
  resp : Resp
  db : DB
  tr : List Ev

/-- Request body of /api/auth/register (data.get of the three fields). -/
structure RegisterReq where
  username : Option String
  email : Option String
  password : Option String

/-- fetchone of SELECT id FROM users WHERE username = ? OR email = ?. -/
def findUserByNameOrEmail (db : DB) (u e : String) : Option UserRow :=
  db.users.find? (fun r => r.username == u || r.email == e)

/-- register handler (src/app.py lines 92-120).  `generate_password_hash`
is the opaque werkzeug collaborator, passed in as `hashFn`.  The sqlite
rowid of the inserted row is modelled as table length + 1. -/
def register (hashFn : String → String) (req : RegisterReq) (db : DB) : HOut :=
  if !(strTruthy req.username && strTruthy req.email && strTruthy req.password) then
    ⟨⟨400, "Missing required fields"⟩, db, [Ev.respond 400]⟩
  else
    let u := req.username.getD ""
    let e := req.email.getD ""
    let p := req.password.getD ""
    let selectTr := execute_query [] false
    match findUserByNameOrEmail db u e with
    | some _ => ⟨⟨400, "User already exists"⟩, db, selectTr ++ [Ev.respond 400]⟩
    | none =>
      let row : UserRow := ⟨db.users.length + 1, u, e, hashFn p⟩
      ⟨⟨201, "User created successfully"⟩,
        { db with users := db.users ++ [row] },
        selectTr ++ execute_query [Ev.dbWrite "users"] false ++ [Ev.respond 201]⟩

/-- Request body of /api/auth/login. -/
structure LoginReq where
  username : Option String
  password : Option String

/-- Result of the login handler: it also sets the cookie session. -/
structure LoginOut where
  resp : Resp
  cookie : Cookie
  db : DB
  tr : List Ev

/-- fetchone of SELECT * FROM users WHERE username = ?; binding NULL
matches no row in SQL. -/
def findUserByName (db : DB) (username : Option String) : Option UserRow :=
  match username with
  | none => none
  | some u => db.users.find? (fun r => r.username == u)

/-- login handler (src/app.py lines 122-151).  `check_password_hash` is the
opaque werkzeug collaborator `checkHash`; `token` stands for the freshly
generated uuid4 and `now` for datetime.utcnow().  A successful login stores
the session row with expiry now + 24 hours (86400 seconds) and returns the
token; any other login returns 401 with Invalid credentials. -/
def login (checkHash : String → Option String → Bool) (token : String) (now : Int)
    (cookie : Cookie) (req : LoginReq) (db : DB) : LoginOut :=
  let selectTr := execute_query [] false
  match findUserByName db req.username with
  | some user =>
    if checkHash user.password_hash req.password then
      let newCookie : Cookie := ⟨some user.id, some token⟩
      let row : SessionRow := ⟨user.id, token, ExpVal.valid (now + 86400)⟩
      ⟨⟨200, token⟩, newCookie,
        { db with user_sessions := db.user_sessions ++ [row] },
        selectTr ++ execute_query [Ev.dbWrite "user_sessions"] false ++ [Ev.respond 200]⟩
    else ⟨⟨401, "Invalid credentials"⟩, cookie, db, selectTr ++ [Ev.respond 401]⟩
  | none => ⟨⟨401, "Invalid credentials"⟩, cookie, db, selectTr ++ [Ev.respond 401]⟩

/-- logout handler (src/app.py lines 153-169).  When the cookie session has
a truthy user_id and session_token the session row is deleted; a raising
delete (`dbFail`) is swallowed by the except block; in every case the cookie
session is cleared and 200 with Logged out successfully is returned. -/
def logout (dbFail : Bool) (cookie : Cookie) (db : DB) : LoginOut :=
  if natTruthy cookie.user_id && strTruthy cookie.session_token then
    let uid := cookie.user_id.getD 0
    let tok := cookie.session_token.getD ""
    if dbFail then
      ⟨⟨200, "Logged out successfully"⟩, ⟨none, none⟩, db,
        execute_query [Ev.dbDelete "user_sessions"] true ++ [Ev.respond 200]⟩
    else
      ⟨⟨200, "Logged out successfully"⟩, ⟨none, none⟩, deleteSession db uid tok,
        execute_query [Ev.dbDelete "user_sessions"] false ++ [Ev.respond 200]⟩
  else ⟨⟨200, "Logged out successfully"⟩, ⟨none, none⟩, db, [Ev.respond 200]⟩

/-! ## Disease prediction endpoint -/

/-- Request body of /api/health/predict-disease. -/
structure PredictReq where
  age : Option JVal
  gender : Option JVal
  height : Option JVal
  weight : Option JVal
  bp_systolic : Option JVal
  bp_diastolic : Option JVal
  cholesterol : Option JVal
  blood_sugar : Option JVal
  symptoms : Option JVal
  family_history : Option JVal
  lifestyle_factors : Option JVal

/-- Result dict of the opaque disease predictor: whether it carries an
error key, the fields the handler reads out of it, and the json.dumps of
the whole dict (`dumped`, opaque since the dict shape is external). -/
structure PredResult where
  hasError : Bool
  errorMsg : String
  predicted_disease : Option JVal
  risk_level : Option JVal
  confidence_score : Option Int
  dumped : String

/-- predict_disease handler (src/app.py lines 211-296).  `predictor` is the
opaque DiseasePredictionIntegration collaborator; `dbFail1` makes the first
insert raise, `predRaises` makes the predictor raise, `dbFail2` makes the
second insert raise (each handled by the corresponding except/finally
blocks in the source). -/
def predict_disease (predictor : List String → PredResult)
    (dbFail1 predRaises dbFail2 : Bool) (cookie : Cookie) (now : Int)
    (req : PredictReq) (db : DB) : HOut :=
  let a := check_auth cookie now db
  if !a.ok then
    ⟨⟨401, "Not authenticated"⟩, a.db, Ev.authCheck false :: a.tr ++ [Ev.respond 401]⟩
  else
    let uid := cookie.user_id.getD 0
    let symptoms_list := normalizeSymptoms req.symptoms
    let symptoms_json := jsonDumpsStrList symptoms_list
    if dbFail1 then
      ⟨⟨500, "DB error while saving health input"⟩, a.db,
        Ev.authCheck true :: a.tr ++ [Ev.dbOpen, Ev.dbClose, Ev.respond 500]⟩
    else
      let newId := a.db.physical_health_inputs.length + 1
      let row : PhysRow :=
        ⟨newId, uid, req.age, req.gender, req.height, req.weight,
          req.bp_systolic, req.bp_diastolic, req.cholesterol, req.blood_sugar,
          symptoms_json, req.family_history,
          req.lifestyle_factors.map jsonDumps⟩
      let db1 := { a.db with physical_health_inputs := a.db.physical_health_inputs ++ [row] }
      let tr1 := Ev.authCheck true :: a.tr ++
        [Ev.dbOpen, Ev.dbWrite "physical_health_inputs", Ev.dbClose]
      if predRaises then
        ⟨⟨500, "prediction exception"⟩, db1, tr1 ++ [Ev.extCall "disease_predictor", Ev.respond 500]⟩
      else
        let r := predictor symptoms_list
        let tr2 := tr1 ++ [Ev.extCall "disease_predictor"]
        if r.hasError then
          ⟨⟨400, r.errorMsg⟩, db1, tr2 ++ [Ev.respond 400]⟩
        else if dbFail2 then
          ⟨⟨500, "prediction exception"⟩, db1, tr2 ++ [Ev.dbOpen, Ev.dbClose, Ev.respond 500]⟩
        else
          let prow : PredRow :=
            ⟨uid, newId, jsonDumps (r.predicted_disease.getD JVal.null),
              r.risk_level.getD (JVal.str "medium"),
              r.confidence_score.getD 0, r.dumped⟩
          ⟨⟨200, r.dumped⟩,
            { db1 with disease_predictions := db1.disease_predictions ++ [prow] },
            tr2 ++ [Ev.dbOpen, Ev.dbWrite "disease_predictions", Ev.dbClose, Ev.respond 200]⟩

/-! ## Mental health quiz endpoint -/

/-- One element of the responses array of /api/mental-health/submit-quiz. -/
structure QuizRespItem where
  question_id : Option JVal
  answer : Option JVal
  score : Option JVal

/-- Result dict of get_mental_health_recommendations (opaque collaborator). -/
structure AssessResult where
  risk_level : Option JVal
  recommendations : Option JVal
  dumped : String

/-- submit_mental_health_quiz handler (src/app.py lines 306-347).
`calcScore` models calculate_mental_health_score (total score plus opaque
category scores) and `getRec` models get_mental_health_recommendations;
both run before the database writes.  `dbFail` makes the write section
raise (handled by its except/finally). -/
def submit_mental_health_quiz (calcScore : List QuizRespItem → Int × String)
    (getRec : Int → String → AssessResult) (dbFail : Bool)
    (cookie : Cookie) (now : Int) (responses : List QuizRespItem) (db : DB) : HOut :=
  let a := check_auth cookie now db
  if !a.ok then
    ⟨⟨401, "Not authenticated"⟩, a.db, Ev.authCheck false :: a.tr ++ [Ev.respond 401]⟩
  else
    let uid := cookie.user_id.getD 0
    let scores := calcScore responses
    let res := getRec scores.1 scores.2
    let trh := Ev.authCheck true :: a.tr ++
      [Ev.extCall "calculate_mental_health_score",
       Ev.extCall "get_mental_health_recommendations"]
    if dbFail then
      ⟨⟨500, "DB error while saving mental health results"⟩, a.db,
        trh ++ [Ev.dbOpen, Ev.dbClose, Ev.respond 500]⟩
    else
      let rows := responses.map fun r =>
        MHRespRow.mk uid r.question_id r.answer (r.score.getD (JVal.num 0))
      let arow : MHAssessRow :=
        ⟨uid, scores.1, "general", res.risk_level,
          jsonDumps (res.recommendations.getD JVal.null)⟩
      ⟨⟨200, res.dumped⟩,
        { a.db with
          mental_health_responses := a.db.mental_health_responses ++ rows,
          mental_health_assessments := a.db.mental_health_assessments ++ [arow] },
        trh ++ [Ev.dbOpen] ++
          responses.map (fun _ => Ev.dbWrite "mental_health_responses") ++
          [Ev.dbWrite "mental_health_assessments", Ev.dbClose, Ev.respond 200]⟩

/-! ## Fitness recommendations endpoint -/

/-- Request body of /api/fitness/recommendations: the handler only reads
profile_id itself; the rest is handed opaquely to the recommender. -/
structure FitReq where
  profile_id : Option JVal
  payload : String

/-- diet_plan sub-dict of the recommender result. -/
structure DietPlanR where
  daily_calories : Option JVal
  macronutrients : Option JVal
  meal_plan : Option JVal
  duration_weeks : Option JVal

/-- exercise_plan sub-dict of the recommender result. -/
structure ExPlanR where
  exercises : Option JVal
  duration_minutes : Option JVal
  intensity : Option JVal
  frequency_per_week : Option JVal

/-- Result dict of the opaque fitness recommender. -/
structure FitResult where
  diet_plan : DietPlanR
  exercise_plan : ExPlanR
  dumped : String

/-- get_fitness_recommendations handler (src/app.py lines 410-471).
`recommender` is the opaque FitnessIntegration collaborator, called before
any database write; `extRaises` makes it raise and `dbFail` makes the
write section raise (each handled by its except/finally blocks). -/
def get_fitness_recommendations (recommender : FitReq → FitResult)
    (extRaises dbFail : Bool) (cookie : Cookie) (now : Int)
    (req : FitReq) (db : DB) : HOut :=
  let a := check_auth cookie now db
  if !a.ok then
    ⟨⟨401, "Not authenticated"⟩, a.db, Ev.authCheck false :: a.tr ++ [Ev.respond 401]⟩
  else
    let uid := cookie.user_id.getD 0
    if extRaises then
      ⟨⟨500, "Error generating recommendations"⟩, a.db,
        Ev.authCheck true :: a.tr ++ [Ev.extCall "fitness_recommender", Ev.respond 500]⟩
    else
      let r := recommender req
      let trh := Ev.authCheck true :: a.tr ++ [Ev.extCall "fitness_recommender"]
      if dbFail then
        ⟨⟨500, "DB error while saving fitness recommendations"⟩, a.db,
          trh ++ [Ev.dbOpen, Ev.dbClose, Ev.respond 500]⟩
      else
        let dietRow : DietRow :=
          ⟨uid, req.profile_id, "Personalized Diet Plan", "Balanced",
            r.diet_plan.daily_calories,
            r.diet_plan.macronutrients.map jsonDumps,
            r.diet_plan.meal_plan.map jsonDumps,
            r.diet_plan.duration_weeks.getD (JVal.num 4)⟩
        let exRow : ExRow :=
          ⟨uid, req.profile_id, "Personalized Exercise Routine", "Mixed",
            r.exercise_plan.exercises.map jsonDumps,
            r.exercise_plan.duration_minutes,
            r.exercise_plan.intensity,
            r.exercise_plan.frequency_per_week⟩
        ⟨⟨200, r.dumped⟩,
          { a.db with
            diet_plans := a.db.diet_plans ++ [dietRow],
            exercise_routines := a.db.exercise_routines ++ [exRow] },
          trh ++ [Ev.dbOpen, Ev.dbWrite "diet_plans", Ev.dbWrite "exercise_routines",
            Ev.dbClose, Ev.respond 200]⟩

/-! ## Trace predicates -/

/-- Event is a connection open. -/
def isOpenEv : Ev → Bool
  | .dbOpen => true
  | _ => false

/-- Event is a connection close. -/
def isCloseEv : Ev → Bool
  | .dbClose => true
  | _ => false

/-- Event is a table insert. -/
def isWriteEv : Ev → Bool
  | .dbWrite _ => true
  | _ => false

/-- Event is an external service call. -/
def isExtEv : Ev → Bool
  | .extCall _ => true
  | _ => false

/-- Every connection opened in the trace is also closed. -/
def balanced (tr : List Ev) : Prop :=
  tr.countP isOpenEv = tr.countP isCloseEv

/-- Index of the first event satisfying p (trace length when absent). -/
def fidx (p : Ev → Bool) (tr : List Ev) : Nat := tr.findIdx p

/-- The effect order stated by the spec for a prediction endpoint whose
request payload lands in table `payload` and whose service result lands in
table `result`: auth check, then the payload write, then the external
call, then the result write, then the response, each present in the
trace. -/
def claimedOrder (payload result : String) (tr : List Ev) : Prop :=
  fidx (fun e => e == Ev.authCheck true) tr < fidx (fun e => e == Ev.dbWrite payload) tr ∧
  fidx (fun e => e == Ev.dbWrite payload) tr < fidx isExtEv tr ∧
  fidx isExtEv tr < fidx (fun e => e == Ev.dbWrite result) tr ∧
  fidx (fun e => e == Ev.dbWrite result) tr < fidx (fun e => e == Ev.respond 200) tr ∧
  fidx (fun e => e == Ev.respond 200) tr < tr.length

/-- Scan helper: true when some table write precedes some external call. -/
def writeBeforeExtAux : Bool → List Ev → Bool
  | _, [] => false
  | seen, Ev.extCall _ :: rest => seen || writeBeforeExtAux seen rest
  | _, Ev.dbWrite _ :: rest => writeBeforeExtAux true rest
  | seen, _ :: rest => writeBeforeExtAux seen rest

/-- Some table write occurs strictly before some external call. -/
def writeBeforeExt (tr : List Ev) : Bool := writeBeforeExtAux false tr

/-- Scan helper: true when some external call precedes some table write. -/
def extBeforeWriteAux : Bool → List Ev → Bool
  | _, [] => false
  | seen, Ev.dbWrite _ :: rest => seen || extBeforeWriteAux seen rest
  | _, Ev.extCall _ :: rest => extBeforeWriteAux true rest
  | seen, _ :: rest => extBeforeWriteAux seen rest

/-- Some external call occurs strictly before some table write. -/
def extBeforeWrite (tr : List Ev) : Bool := extBeforeWriteAux false tr

/-! ## Concrete fixtures for witnesses -/

/-- Demo database with one user and one session valid until time 2000. -/
def demoDB : DB :=
  { users := [⟨1, "alice", "alice@example.com", "hash:pw"⟩],
    user_sessions := [⟨1, "tok", ExpVal.valid 2000⟩],
    physical_health_inputs := [],
    disease_predictions := [],
    mental_health_responses := [],
    mental_health_assessments := [],
    diet_plans := [],
    exercise_routines := [] }

/-- Demo database whose only session expired at time 10. -/
def demoDBExpired : DB :=
  { demoDB with user_sessions := [⟨1, "tok", ExpVal.valid 10⟩] }

/-- Cookie session matching the demo session row. -/
def demoCookie : Cookie := ⟨some 1, some "tok"⟩

/-- Concrete stand-in for the opaque disease predictor. -/
def demoPredictor (hasErr : Bool) : List String → PredResult :=
  fun _ => ⟨hasErr, "no symptoms provided", some (JVal.str "flu"),
    some (JVal.str "low"), some 1, "PRED"⟩

/-- Concrete request body for the predict-disease endpoint. -/
def demoPredictReq : PredictReq :=
  ⟨some (JVal.num 30), some (JVal.str "f"), none, none, none, none, none, none,
    some (JVal.str " fever , cough "), none, none⟩

/-- Concrete quiz scorer stand-in. -/
def demoCalcScore : List QuizRespItem → Int × String := fun rs => (rs.length, "cats")

/-- Concrete quiz recommendation stand-in. -/
def demoGetRec : Int → String → AssessResult :=
  fun _ _ => ⟨some (JVal.str "low"), some (JVal.list [JVal.str "rest"]), "ASSESS"⟩

/-- Concrete quiz responses. -/
def demoResponses : List QuizRespItem :=
  [⟨some (JVal.num 1), some (JVal.str "often"), some (JVal.num 2)⟩]

/-- Concrete fitness recommender stand-in. -/
def demoRecommender : FitReq → FitResult :=
  fun _ =>
    ⟨⟨some (JVal.num 2000), some (JVal.list []), some (JVal.list []), some (JVal.num 6)⟩,
      ⟨some (JVal.list [JVal.str "run"]), some (JVal.num 30), some (JVal.str "medium"),
        some (JVal.num 3)⟩, "FIT"⟩

/-- Concrete fitness request body. -/
def demoFitReq : FitReq := ⟨some (JVal.num 1), "goal: strength"⟩

/-! ## Shared lemmas about check_auth -/

/-- check_auth has four possible outcomes: cookie rejected outright, no or
bad session row after the SELECT, a valid session, or an expired session
whose row it deletes. -/
theorem check_auth_cases (cookie : Cookie) (now : Int) (db : DB) :
    check_auth cookie now db = ⟨false, db, []⟩ ∨
    check_auth cookie now db = ⟨false, db, [Ev.dbOpen, Ev.dbClose]⟩ ∨
    check_auth cookie now db = ⟨true, db, [Ev.dbOpen, Ev.dbClose]⟩ ∨
    check_auth cookie now db =
      ⟨false, deleteSession db (cookie.user_id.getD 0) (cookie.session_token.getD ""),
        [Ev.dbOpen, Ev.dbClose, Ev.dbOpen, Ev.dbDelete "user_sessions", Ev.dbClose]⟩ := by
  unfold check_auth
  split
  · split
    · simp [execute_query]
    · split
      · simp [execute_query]
      · simp [execute_query]
      · split
        · simp [execute_query]
        · simp [execute_query]
  · simp

/-- When check_auth succeeds it leaves the database untouched and its trace
is exactly the open/close pair of its SELECT. -/
theorem check_auth_ok_shape (cookie : Cookie) (now : Int) (db : DB)
    (h : (check_auth cookie now db).ok = true) :
    (check_auth cookie now db).db = db ∧
      (check_auth cookie now db).tr = [Ev.dbOpen, Ev.dbClose] := by
  rcases check_auth_cases cookie now db with hc | hc | hc | hc <;> rw [hc] <;> rw [hc] at h <;>
    simp_all

/-- check_auth never inserts: every table other than user_sessions is
untouched, and the resulting user_sessions list is a sublist of the old
one (an expired row may be deleted). -/
theorem check_auth_tables (cookie : Cookie) (now : Int) (db : DB) :
    (check_auth cookie now db).db.users = db.users ∧
    (check_auth cookie now db).db.physical_health_inputs = db.physical_health_inputs ∧
    (check_auth cookie now db).db.disease_predictions = db.disease_predictions ∧
    (check_auth cookie now db).db.mental_health_responses = db.mental_health_responses ∧
    (check_auth cookie now db).db.mental_health_assessments = db.mental_health_assessments ∧
    (check_auth cookie now db).db.diet_plans = db.diet_plans ∧
    (check_auth cookie now db).db.exercise_routines = db.exercise_routines ∧
    ((check_auth cookie now db).db.user_sessions).Sublist db.user_sessions := by
  rcases check_auth_cases cookie now db with hc | hc | hc | hc <;> rw [hc] <;>
    simp [deleteSession, List.filter_sublist, List.Sublist.refl]

/-- The trace of check_auth opens as many connections as it closes. -/
theorem check_auth_tr_balanced (cookie : Cookie) (now : Int) (db : DB) :
    balanced (check_auth cookie now db).tr := by
  rcases check_auth_cases cookie now db with hc | hc | hc | hc <;> rw [hc] <;>
    simp [balanced, List.countP_cons, isOpenEv, isCloseEv]

/-- Deleting a session removes every matching row. -/
theorem findSession_deleteSession (db : DB) (uid : Nat) (tok : String) :
    findSession (deleteSession db uid tok) uid tok = none := by
  unfold findSession deleteSession
  rw [List.find?_eq_none]
  intro x hx
  rw [List.mem_filter] at hx
  have h2 := hx.2
  simp only [Bool.not_eq_true'] at h2
  simp [h2]

/-! ## Shared lemmas about the handlers -/

/-- A failed auth check makes predict_disease answer 401 with the database
exactly as check_auth left it. -/
theorem predict_disease_auth_false (predictor : List String → PredResult)
    (f1 f2 f3 : Bool) (cookie : Cookie) (now : Int) (req : PredictReq) (db : DB)
    (hok : (check_auth cookie now db).ok = false) :
    (predict_disease predictor f1 f2 f3 cookie now req db).resp = ⟨401, "Not authenticated"⟩ ∧
    (predict_disease predictor f1 f2 f3 cookie now req db).db = (check_auth cookie now db).db := by
  unfold predict_disease
  simp [hok]

/-- A failed auth check makes submit_mental_health_quiz answer 401 with the
database exactly as check_auth left it. -/
theorem submit_quiz_auth_false (calcScore : List QuizRespItem → Int × String)
    (getRec : Int → String → AssessResult) (dbFail : Bool) (cookie : Cookie)
    (now : Int) (responses : List QuizRespItem) (db : DB)
    (hok : (check_auth cookie now db).ok = false) :
    (submit_mental_health_quiz calcScore getRec dbFail cookie now responses db).resp
      = ⟨401, "Not authenticated"⟩ ∧
    (submit_mental_health_quiz calcScore getRec dbFail cookie now responses db).db
      = (check_auth cookie now db).db := by
  unfold submit_mental_health_quiz
  simp [hok]

/-- A failed auth check makes get_fitness_recommendations answer 401 with
the database exactly as check_auth left it. -/
theorem fitness_auth_false (recommender : FitReq → FitResult) (extRaises dbFail : Bool)
    (cookie : Cookie) (now : Int) (req : FitReq) (db : DB)
    (hok : (check_auth cookie now db).ok = false) :
    (get_fitness_recommendations recommender extRaises dbFail cookie now req db).resp
      = ⟨401, "Not authenticated"⟩ ∧
    (get_fitness_recommendations recommender extRaises dbFail cookie now req db).db
      = (check_auth cookie now db).db := by
  unfold get_fitness_recommendations
  simp [hok]

/-- Effect trace of a fully successful predict_disease request. -/
theorem predict_disease_success_tr (predictor : List String → PredResult)
    (cookie : Cookie) (now : Int) (req : PredictReq) (db : DB)
    (hok : (check_auth cookie now db).ok = true)
    (herr : (predictor (normalizeSymptoms req.symptoms)).hasError = false) :
    (predict_disease predictor false false false cookie now req db).tr =
      [Ev.authCheck true, Ev.dbOpen, Ev.dbClose,
       Ev.dbOpen, Ev.dbWrite "physical_health_inputs", Ev.dbClose,
       Ev.extCall "disease_predictor",
       Ev.dbOpen, Ev.dbWrite "disease_predictions", Ev.dbClose, Ev.respond 200] := by
  obtain ⟨hdb, htr⟩ := check_auth_ok_shape cookie now db hok
  unfold predict_disease
  simp [hok, htr, herr]

/-- Whenever the auth check passes and the first insert does not raise,
predict_disease appends exactly one row to physical_health_inputs, whose
symptoms column is the JSON encoding of the normalized symptom list; this
holds regardless of how the prediction step then goes. -/
theorem predict_disease_phys (predictor : List String → PredResult) (f2 f3 : Bool)
    (cookie : Cookie) (now : Int) (req : PredictReq) (db : DB)
    (hok : (check_auth cookie now db).ok = true) :
    (predict_disease predictor false f2 f3 cookie now req db).db.physical_health_inputs =
      db.physical_health_inputs ++
        [⟨db.physical_health_inputs.length + 1, cookie.user_id.getD 0, req.age, req.gender,
          req.height, req.weight, req.bp_systolic, req.bp_diastolic, req.cholesterol,
          req.blood_sugar, jsonDumpsStrList (normalizeSymptoms req.symptoms),
          req.family_history, req.lifestyle_factors.map jsonDumps⟩] := by
  obtain ⟨hdb, htr⟩ := check_auth_ok_shape cookie now db hok
  unfold predict_disease
  rcases hE : (predictor (normalizeSymptoms req.symptoms)).hasError <;>
    cases f2 <;> cases f3 <;> simp [hok, hdb, hE]

/-- Effect trace of a successful submit_mental_health_quiz request. -/
theorem submit_quiz_success_tr (calcScore : List QuizRespItem → Int × String)
    (getRec : Int → String → AssessResult) (cookie : Cookie) (now : Int)
    (responses : List QuizRespItem) (db : DB)
    (hok : (check_auth cookie now db).ok = true) :
    (submit_mental_health_quiz calcScore getRec false cookie now responses db).tr =
      Ev.authCheck true :: Ev.dbOpen :: Ev.dbClose ::
      Ev.extCall "calculate_mental_health_score" ::
      Ev.extCall "get_mental_health_recommendations" :: Ev.dbOpen ::
      (responses.map (fun _ => Ev.dbWrite "mental_health_responses") ++
        [Ev.dbWrite "mental_health_assessments", Ev.dbClose, Ev.respond 200]) := by
  obtain ⟨hdb, htr⟩ := check_auth_ok_shape cookie now db hok
  unfold submit_mental_health_quiz
  simp [hok, htr]

/-- Effect trace of a successful get_fitness_recommendations request. -/
theorem fitness_success_tr (recommender : FitReq → FitResult) (cookie : Cookie)
    (now : Int) (req : FitReq) (db : DB)
    (hok : (check_auth cookie now db).ok = true) :
    (get_fitness_recommendations recommender false false cookie now req db).tr =
      [Ev.authCheck true, Ev.dbOpen, Ev.dbClose, Ev.extCall "fitness_recommender",
       Ev.dbOpen, Ev.dbWrite "diet_plans", Ev.dbWrite "exercise_routines",
       Ev.dbClose, Ev.respond 200] := by
  obtain ⟨hdb, htr⟩ := check_auth_ok_shape cookie now db hok
  unfold get_fitness_recommendations
  simp [hok, htr]

/-! ## Scan lemmas for the order predicates -/

/-- After an external call has been seen, a later write decides the scan. -/
theorem extBeforeWriteAux_true (l : List Ev) :
    extBeforeWriteAux true l = l.any isWriteEv := by
  induction l with
  | nil => rfl
  | cons e rest ih => cases e <;> simp_all [extBeforeWriteAux, isWriteEv]

/-- A trace with no external call never has a write before one. -/
theorem writeBeforeExtAux_no_ext (l : List Ev) :
    (∀ e ∈ l, isExtEv e = false) → ∀ s, writeBeforeExtAux s l = false := by
  induction l with
  | nil => intro _ _; rfl
  | cons e rest ih =>
    intro h s
    have he := h e (List.mem_cons_self e rest)
    have hr : ∀ x ∈ rest, isExtEv x = false := fun x hx => h x (List.mem_cons_of_mem e hx)
    cases e with
    | extCall srv => simp [isExtEv] at he
    | dbWrite t => simpa [writeBeforeExtAux] using ih hr true
    | authCheck b => simpa [writeBeforeExtAux] using ih hr s
    | dbOpen => simpa [writeBeforeExtAux] using ih hr s
    | dbDelete t => simpa [writeBeforeExtAux] using ih hr s
    | dbClose => simpa [writeBeforeExtAux] using ih hr s
    | respond n => simpa [writeBeforeExtAux] using ih hr s

/-- Per-response write events contribute nothing to a count of events the
predicate rejects on table writes. -/
theorem countP_map_write (p : Ev → Bool) (t : String)
    (hp : p (Ev.dbWrite t) = false) (rs : List QuizRespItem) :
    (rs.map fun _ => Ev.dbWrite t).countP p = 0 := by
  induction rs with
  | nil => rfl
  | cons r rest ih => simp [List.countP_cons, hp, ih]

/-- Replicated non-open non-close events count as zero. -/
theorem countP_replicate_zero (p : Ev → Bool) (e : Ev) (hp : p e = false) (n : Nat) :
    (List.replicate n e).countP p = 0 := by
  induction n with
  | zero => rfl
  | succ n ih => simp [List.replicate_succ, List.countP_cons, hp, ih]

/-! ## Balance lemmas: every opened connection is closed -/

/-- register closes every connection it opens, on every branch. -/
theorem register_tr_balanced (hashFn : String → String) (req : RegisterReq) (db : DB) :
    balanced (register hashFn req db).tr := by
  unfold register balanced
  split
  · simp [List.countP_cons, isOpenEv, isCloseEv]
  · rcases hf : findUserByNameOrEmail db (req.username.getD "") (req.email.getD "") with _ | u <;>
      simp [hf, execute_query, List.countP_cons, List.countP_append, isOpenEv, isCloseEv]

/-- login closes every connection it opens, on every branch. -/
theorem login_tr_balanced (checkHash : String → Option String → Bool) (token : String)
    (now : Int) (cookie : Cookie) (req : LoginReq) (db : DB) :
    balanced (login checkHash token now cookie req db).tr := by
  unfold login balanced
  rcases hf : findUserByName db req.username with _ | u
  · simp [hf, execute_query, List.countP_cons, List.countP_append, isOpenEv, isCloseEv]
  · rcases hch : checkHash u.password_hash req.password <;>
      simp [hf, hch, execute_query, List.countP_cons, List.countP_append, isOpenEv, isCloseEv]

/-- logout closes every connection it opens, on every branch. -/
theorem logout_tr_balanced (dbFail : Bool) (cookie : Cookie) (db : DB) :
    balanced (logout dbFail cookie db).tr := by
  unfold logout balanced
  split
  · cases dbFail <;>
      simp [execute_query, List.countP_cons, List.countP_append, isOpenEv, isCloseEv]
  · simp [List.countP_cons, isOpenEv, isCloseEv]

/-- predict_disease closes every connection it opens, on every branch. -/
theorem predict_tr_balanced (predictor : List String → PredResult) (f1 f2 f3 : Bool)
    (cookie : Cookie) (now : Int) (req : PredictReq) (db : DB) :
    balanced (predict_disease predictor f1 f2 f3 cookie now req db).tr := by
  unfold predict_disease balanced
  rcases check_auth_cases cookie now db with hc | hc | hc | hc <;> rw [hc] <;>
    rcases hE : (predictor (normalizeSymptoms req.symptoms)).hasError <;>
    cases f1 <;> cases f2 <;> cases f3 <;>
    simp [hE, List.countP_cons, List.countP_append, isOpenEv, isCloseEv]

/-- submit_mental_health_quiz closes every connection it opens, on every
branch. -/
theorem quiz_tr_balanced (calcScore : List QuizRespItem → Int × String)
    (getRec : Int → String → AssessResult) (dbFail : Bool) (cookie : Cookie)
    (now : Int) (responses : List QuizRespItem) (db : DB) :
    balanced (submit_mental_health_quiz calcScore getRec dbFail cookie now responses db).tr := by
  unfold submit_mental_health_quiz balanced
  rcases check_auth_cases cookie now db with hc | hc | hc | hc <;> rw [hc] <;>
    cases dbFail <;>
    simp [List.countP_cons, List.countP_append, isOpenEv, isCloseEv,
      countP_map_write isOpenEv "mental_health_responses" rfl,
      countP_map_write isCloseEv "mental_health_responses" rfl,
      countP_replicate_zero isOpenEv (Ev.dbWrite "mental_health_responses") rfl,
      countP_replicate_zero isCloseEv (Ev.dbWrite "mental_health_responses") rfl]

/-- get_fitness_recommendations closes every connection it opens, on every
branch. -/
theorem fitness_tr_balanced (recommender : FitReq → FitResult) (extRaises dbFail : Bool)
    (cookie : Cookie) (now : Int) (req : FitReq) (db : DB) :
    balanced (get_fitness_recommendations recommender extRaises dbFail cookie now req db).tr := by
  unfold get_fitness_recommendations balanced
  rcases check_auth_cases cookie now db with hc | hc | hc | hc <;> rw [hc] <;>
    cases extRaises <;> cases dbFail <;>
    simp [List.countP_cons, List.countP_append, isOpenEv, isCloseEv]

end HealthApp

namespace HealthApp

/-! ## Claim theorems -/

/-- C10: the logout handler always succeeds: for every request, including
those with no session data and those in which the database delete of the
session row raises an exception, it clears the cookie session and returns
200 with Logged out successfully; it never returns an error status. -/
theorem claim_C10 (dbFail : Bool) (cookie : Cookie) (db : DB) :
    (logout dbFail cookie db).resp = ⟨200, "Logged out successfully"⟩ ∧
    (logout dbFail cookie db).cookie = ⟨none, none⟩ := by
  unfold logout
  split
  · cases dbFail <;> simp
  · simp

/-- C3: the register handler validates its input: a missing (falsy)
username, email or password yields 400 with Missing required fields and no
insert; a username or email matching an existing user yields 400 with User
already exists and no insert; otherwise exactly one user row is inserted,
with the password stored as its hash, and 201 is returned.  The handler
treats an empty-string field like a missing one (Python truthiness). -/
theorem claim_C3 (hashFn : String → String) (req : RegisterReq) (db : DB) :
    ((strTruthy req.username = false ∨ strTruthy req.email = false ∨
        strTruthy req.password = false) →
      register hashFn req db = ⟨⟨400, "Missing required fields"⟩, db, [Ev.respond 400]⟩) ∧
    (∀ user, strTruthy req.username = true → strTruthy req.email = true →
      strTruthy req.password = true →
      findUserByNameOrEmail db (req.username.getD "") (req.email.getD "") = some user →
      (register hashFn req db).resp = ⟨400, "User already exists"⟩ ∧
      (register hashFn req db).db = db) ∧
    (strTruthy req.username = true → strTruthy req.email = true →
      strTruthy req.password = true →
      findUserByNameOrEmail db (req.username.getD "") (req.email.getD "") = none →
      (register hashFn req db).resp = ⟨201, "User created successfully"⟩ ∧
      (register hashFn req db).db.users =
        db.users ++ [⟨db.users.length + 1, req.username.getD "", req.email.getD "",
          hashFn (req.password.getD "")⟩] ∧
      (register hashFn req db).db.user_sessions = db.user_sessions) := by
  refine ⟨?_, ?_, ?_⟩
  · intro h
    have hc : (strTruthy req.username && strTruthy req.email && strTruthy req.password) = false := by
      rcases h with h | h | h <;> simp [h]
    unfold register
    simp [hc]
  · intro user h1 h2 h3 hf
    unfold register
    simp [h1, h2, h3, hf, execute_query]
  · intro h1 h2 h3 hf
    unfold register
    simp [h1, h2, h3, hf, execute_query]

/-- C3 witness: the three register branches at concrete inputs. -/
theorem claim_C3_witness :
    register (fun s => "hash:" ++ s) ⟨some "bob", some "bob@x.com", none⟩ demoDB
      = ⟨⟨400, "Missing required fields"⟩, demoDB, [Ev.respond 400]⟩ ∧
    ((register (fun s => "hash:" ++ s) ⟨some "alice", some "new@x.com", some "pw"⟩ demoDB).resp
        = ⟨400, "User already exists"⟩ ∧
      (register (fun s => "hash:" ++ s) ⟨some "alice", some "new@x.com", some "pw"⟩ demoDB).db
        = demoDB) ∧
    ((register (fun s => "hash:" ++ s) ⟨some "bob", some "bob@x.com", some "pw"⟩ demoDB).resp
        = ⟨201, "User created successfully"⟩ ∧
      (register (fun s => "hash:" ++ s) ⟨some "bob", some "bob@x.com", some "pw"⟩ demoDB).db.users
        = demoDB.users ++ [⟨demoDB.users.length + 1, "bob", "bob@x.com", "hash:pw"⟩]) := by
  refine ⟨?_, ?_, ?_⟩
  · exact (claim_C3 (fun s => "hash:" ++ s) ⟨some "bob", some "bob@x.com", none⟩ demoDB).1
      (by decide)
  · exact (claim_C3 (fun s => "hash:" ++ s) ⟨some "alice", some "new@x.com", some "pw"⟩ demoDB).2.1
      ⟨1, "alice", "alice@example.com", "hash:pw"⟩ rfl rfl rfl (by decide)
  · have h := (claim_C3 (fun s => "hash:" ++ s) ⟨some "bob", some "bob@x.com", some "pw"⟩ demoDB).2.2
      rfl rfl rfl (by decide)
    exact ⟨h.1, h.2.1⟩

/-- C4: a successful login (username found, stored hash matches) inserts
exactly one user_sessions row for that user with the fresh token and an
expiry 24 hours (86400 seconds) past the current time, and returns the
token with status 200; every failed login returns 401 and inserts no
session row. -/
theorem claim_C4 (checkHash : String → Option String → Bool) (token : String)
    (now : Int) (cookie : Cookie) (req : LoginReq) (db : DB) :
    (∀ user, findUserByName db req.username = some user →
      checkHash user.password_hash req.password = true →
      (login checkHash token now cookie req db).resp = ⟨200, token⟩ ∧
      (login checkHash token now cookie req db).db.user_sessions =
        db.user_sessions ++ [⟨user.id, token, ExpVal.valid (now + 86400)⟩] ∧
      (login checkHash token now cookie req db).db.users = db.users) ∧
    ((∀ user, findUserByName db req.username = some user →
        checkHash user.password_hash req.password = false) →
      (login checkHash token now cookie req db).resp.status = 401 ∧
      (login checkHash token now cookie req db).db = db) := by
  constructor
  · intro user hf hch
    unfold login
    simp [hf, hch, execute_query]
  · intro h
    unfold login
    rcases hf : findUserByName db req.username with _ | user
    · simp [hf, execute_query]
    · have hch := h user hf
      simp [hf, hch, execute_query]

/-- C4 witness: a successful and a failed login at concrete inputs. -/
theorem claim_C4_witness :
    ((login (fun h p => p == some "pw" && h == "hash:pw") "fresh-token" 500 ⟨none, none⟩
        ⟨some "alice", some "pw"⟩ demoDB).resp = ⟨200, "fresh-token"⟩ ∧
      (login (fun h p => p == some "pw" && h == "hash:pw") "fresh-token" 500 ⟨none, none⟩
        ⟨some "alice", some "pw"⟩ demoDB).db.user_sessions =
        demoDB.user_sessions ++ [⟨1, "fresh-token", ExpVal.valid (500 + 86400)⟩]) ∧
    ((login (fun h p => p == some "pw" && h == "hash:pw") "fresh-token" 500 ⟨none, none⟩
        ⟨some "alice", some "wrong"⟩ demoDB).resp.status = 401 ∧
      (login (fun h p => p == some "pw" && h == "hash:pw") "fresh-token" 500 ⟨none, none⟩
        ⟨some "alice", some "wrong"⟩ demoDB).db = demoDB) := by
  constructor
  · have h := (claim_C4 (fun h p => p == some "pw" && h == "hash:pw") "fresh-token" 500
      ⟨none, none⟩ ⟨some "alice", some "pw"⟩ demoDB).1
      ⟨1, "alice", "alice@example.com", "hash:pw"⟩ (by decide) (by decide)
    exact ⟨h.1, h.2.1⟩
  · exact (claim_C4 (fun h p => p == some "pw" && h == "hash:pw") "fresh-token" 500
      ⟨none, none⟩ ⟨some "alice", some "wrong"⟩ demoDB).2
      (by intro user hu; simp [findUserByName, demoDB] at hu; simp [← hu])


/-- C5: check_auth enforces session expiry: with a truthy cookie session
and a matching user_sessions row carrying a parseable expiry strictly in
the past, check_auth deletes that row and returns false, so a prediction
request is rejected with 401; with the expiry in the future it returns
true and leaves the database alone. -/
theorem claim_C5 (cookie : Cookie) (now : Int) (db : DB) (uid : Nat) (tok : String)
    (row : SessionRow) (t : Int)
    (hu : cookie.user_id = some uid) (hu0 : uid ≠ 0)
    (ht : cookie.session_token = some tok) (ht0 : tok ≠ "")
    (hfind : findSession db uid tok = some row)
    (hexp : row.expires_at = ExpVal.valid t) :
    (t < now →
      (check_auth cookie now db).ok = false ∧
      (check_auth cookie now db).db = deleteSession db uid tok ∧
      findSession (check_auth cookie now db).db uid tok = none ∧
      (∀ predictor req,
        (predict_disease predictor false false false cookie now req db).resp.status = 401)) ∧
    (now < t →
      (check_auth cookie now db).ok = true ∧ (check_auth cookie now db).db = db) := by
  constructor
  · intro hlt
    have hca : check_auth cookie now db =
        ⟨false, deleteSession db uid tok,
          execute_query [] false ++ execute_query [Ev.dbDelete "user_sessions"] false⟩ := by
      unfold check_auth
      simp [hu, ht, natTruthy, strTruthy, hu0, ht0, hfind, hexp, hlt]
    refine ⟨by rw [hca], by rw [hca], ?_, ?_⟩
    · rw [hca]
      exact findSession_deleteSession db uid tok
    · intro predictor req
      have h401 := (predict_disease_auth_false predictor false false false cookie now req db
        (by rw [hca])).1
      rw [h401]
  · intro hgt
    have hca : check_auth cookie now db = ⟨true, db, execute_query [] false⟩ := by
      unfold check_auth
      simp [hu, ht, natTruthy, strTruthy, hu0, ht0, hfind, hexp]
      omega
    exact ⟨by rw [hca], by rw [hca]⟩

/-- C5 witness: the expired and the still-valid case at concrete inputs. -/
theorem claim_C5_witness :
    ((check_auth demoCookie 20 demoDBExpired).ok = false ∧
      findSession (check_auth demoCookie 20 demoDBExpired).db 1 "tok" = none) ∧
    ((check_auth demoCookie 20 demoDB).ok = true ∧
      (check_auth demoCookie 20 demoDB).db = demoDB) := by
  constructor
  · have h := (claim_C5 demoCookie 20 demoDBExpired 1 "tok" ⟨1, "tok", ExpVal.valid 10⟩ 10
      rfl (by decide) rfl (by decide) rfl rfl).1 (by decide)
    exact ⟨h.1, h.2.2.1⟩
  · exact (claim_C5 demoCookie 20 demoDB 1 "tok" ⟨1, "tok", ExpVal.valid 2000⟩ 2000
      rfl (by decide) rfl (by decide) rfl rfl).2 (by decide)

/-- C9: check_auth accepts sessions with malformed expiry: with a truthy
cookie session and a matching row whose expires_at is non-empty but
unparseable, check_auth returns true and changes nothing, and it also
returns true when expires_at is null or empty. -/
theorem claim_C9 (cookie : Cookie) (now : Int) (db : DB) (uid : Nat) (tok : String)
    (row : SessionRow)
    (hu : cookie.user_id = some uid) (hu0 : uid ≠ 0)
    (ht : cookie.session_token = some tok) (ht0 : tok ≠ "")
    (hfind : findSession db uid tok = some row) :
    (∀ s, row.expires_at = ExpVal.badFormat s →
      (check_auth cookie now db).ok = true ∧ (check_auth cookie now db).db = db) ∧
    (row.expires_at = ExpVal.empty →
      (check_auth cookie now db).ok = true ∧ (check_auth cookie now db).db = db) := by
  constructor
  · intro s hexp
    have hca : check_auth cookie now db = ⟨true, db, execute_query [] false⟩ := by
      unfold check_auth
      simp [hu, ht, natTruthy, strTruthy, hu0, ht0, hfind, hexp]
    exact ⟨by rw [hca], by rw [hca]⟩
  · intro hexp
    have hca : check_auth cookie now db = ⟨true, db, execute_query [] false⟩ := by
      unfold check_auth
      simp [hu, ht, natTruthy, strTruthy, hu0, ht0, hfind, hexp]
    exact ⟨by rw [hca], by rw [hca]⟩

/-- C9 witness: a malformed and an empty expiry at concrete inputs. -/
theorem claim_C9_witness :
    ((check_auth demoCookie 123
        { demoDB with user_sessions := [⟨1, "tok", ExpVal.badFormat "nonsense"⟩] }).ok = true) ∧
    ((check_auth demoCookie 123
        { demoDB with user_sessions := [⟨1, "tok", ExpVal.empty⟩] }).ok = true) := by
  constructor
  · exact ((claim_C9 demoCookie 123
      { demoDB with user_sessions := [⟨1, "tok", ExpVal.badFormat "nonsense"⟩] } 1 "tok"
      ⟨1, "tok", ExpVal.badFormat "nonsense"⟩ rfl (by decide) rfl (by decide) rfl).1
      "nonsense" rfl).1
  · exact ((claim_C9 demoCookie 123
      { demoDB with user_sessions := [⟨1, "tok", ExpVal.empty⟩] } 1 "tok"
      ⟨1, "tok", ExpVal.empty⟩ rfl (by decide) rfl (by decide) rfl).2 rfl).1


/-- C7: predict_disease normalizes the symptoms payload into a list of
strings before persisting: a list input has every element stringified, a
string input is split on commas with surrounding whitespace stripped and
empty entries dropped, any other input (missing or null included) becomes
the empty list, and the stored symptoms column is the JSON encoding of
that list. -/
theorem claim_C7 (predictor : List String → PredResult) (f2 f3 : Bool)
    (cookie : Cookie) (now : Int) (req : PredictReq) (db : DB)
    (hok : (check_auth cookie now db).ok = true) :
    ((predict_disease predictor false f2 f3 cookie now req db).db.physical_health_inputs =
      db.physical_health_inputs ++
        [⟨db.physical_health_inputs.length + 1, cookie.user_id.getD 0, req.age, req.gender,
          req.height, req.weight, req.bp_systolic, req.bp_diastolic, req.cholesterol,
          req.blood_sugar, jsonDumpsStrList (normalizeSymptoms req.symptoms),
          req.family_history, req.lifestyle_factors.map jsonDumps⟩]) ∧
    (∀ xs, req.symptoms = some (JVal.list xs) →
      normalizeSymptoms req.symptoms = pyStrList xs) ∧
    (∀ str, req.symptoms = some (JVal.str str) →
      normalizeSymptoms req.symptoms = splitStripDrop str) ∧
    (req.symptoms = none → normalizeSymptoms req.symptoms = []) ∧
    (req.symptoms = some JVal.null → normalizeSymptoms req.symptoms = []) ∧
    (∀ b, req.symptoms = some (JVal.bool b) → normalizeSymptoms req.symptoms = []) ∧
    (∀ n, req.symptoms = some (JVal.num n) → normalizeSymptoms req.symptoms = []) := by
  refine ⟨predict_disease_phys predictor f2 f3 cookie now req db hok, ?_, ?_, ?_, ?_, ?_, ?_⟩
  · intro xs h
    rw [h]
    cases xs <;> rfl
  · intro str h
    rw [h]
    by_cases hs : str = ""
    · subst hs
      decide
    · simp [normalizeSymptoms, JVal.truthy, hs]
  · intro h
    rw [h]
    rfl
  · intro h
    rw [h]
    rfl
  · intro b h
    rw [h]
    cases b <;> rfl
  · intro n h
    rw [h]
    rcases h0 : (n != 0) <;> simp [normalizeSymptoms, JVal.truthy, h0, pyStrList]

/-- C7 witness: a comma-separated string payload at concrete inputs. -/
theorem claim_C7_witness :
    ((predict_disease (demoPredictor false) false false false demoCookie 100
        demoPredictReq demoDB).db.physical_health_inputs =
      demoDB.physical_health_inputs ++
        [⟨demoDB.physical_health_inputs.length + 1, demoCookie.user_id.getD 0,
          demoPredictReq.age, demoPredictReq.gender, demoPredictReq.height,
          demoPredictReq.weight, demoPredictReq.bp_systolic, demoPredictReq.bp_diastolic,
          demoPredictReq.cholesterol, demoPredictReq.blood_sugar,
          jsonDumpsStrList (normalizeSymptoms demoPredictReq.symptoms),
          demoPredictReq.family_history, demoPredictReq.lifestyle_factors.map jsonDumps⟩]) ∧
    normalizeSymptoms demoPredictReq.symptoms = splitStripDrop " fever , cough " ∧
    splitStripDrop " fever , cough " = ["fever", "cough"] := by
  have h := claim_C7 (demoPredictor false) false false demoCookie 100 demoPredictReq demoDB rfl
  exact ⟨h.1, h.2.2.1 " fever , cough " rfl, by decide⟩

/-- C8: predict_disease is not atomic on a prediction error: when the
external predictor returns a result carrying an error key, the handler
answers 400, yet the physical_health_inputs row inserted for the request
remains in the database and no disease_predictions row is added. -/
theorem claim_C8 (predictor : List String → PredResult) (cookie : Cookie) (now : Int)
    (req : PredictReq) (db : DB)
    (hok : (check_auth cookie now db).ok = true)
    (herr : (predictor (normalizeSymptoms req.symptoms)).hasError = true) :
    (predict_disease predictor false false false cookie now req db).resp =
      ⟨400, (predictor (normalizeSymptoms req.symptoms)).errorMsg⟩ ∧
    (predict_disease predictor false false false cookie now req db).db.physical_health_inputs =
      db.physical_health_inputs ++
        [⟨db.physical_health_inputs.length + 1, cookie.user_id.getD 0, req.age, req.gender,
          req.height, req.weight, req.bp_systolic, req.bp_diastolic, req.cholesterol,
          req.blood_sugar, jsonDumpsStrList (normalizeSymptoms req.symptoms),
          req.family_history, req.lifestyle_factors.map jsonDumps⟩] ∧
    (predict_disease predictor false false false cookie now req db).db.disease_predictions =
      db.disease_predictions := by
  obtain ⟨hdb, htr⟩ := check_auth_ok_shape cookie now db hok
  refine ⟨?_, predict_disease_phys predictor false false cookie now req db hok, ?_⟩
  · unfold predict_disease
    simp [hok, hdb, herr]
  · unfold predict_disease
    simp [hok, hdb, herr]

/-- C8 witness: an erroring predictor at concrete inputs leaves the
request row behind while answering 400. -/
theorem claim_C8_witness :
    (predict_disease (demoPredictor true) false false false demoCookie 100
      demoPredictReq demoDB).resp =
      ⟨400, (demoPredictor true (normalizeSymptoms demoPredictReq.symptoms)).errorMsg⟩ ∧
    (predict_disease (demoPredictor true) false false false demoCookie 100
      demoPredictReq demoDB).db.physical_health_inputs ≠ [] := by
  have h := claim_C8 (demoPredictor true) demoCookie 100 demoPredictReq demoDB rfl rfl
  refine ⟨h.1, ?_⟩
  rw [h.2.1]
  simp [demoDB]


/-- C2 counterexample: with an expired session, the predict-disease
handler does return 401 and inserts nothing, but the database is NOT
unchanged: check_auth has deleted the expired session row. -/
theorem claim_C2_counterexample :
    (predict_disease (demoPredictor false) false false false demoCookie 20
      demoPredictReq demoDBExpired).resp.status = 401 ∧
    (predict_disease (demoPredictor false) false false false demoCookie 20
      demoPredictReq demoDBExpired).db.user_sessions = [] ∧
    demoDBExpired.user_sessions ≠ [] := by
  exact ⟨rfl, rfl, by decide⟩

/-- C2 amended: for every request to a prediction endpoint, if check_auth
returns false the handler returns 401 and no row is inserted into any
table; the database is unchanged except that check_auth itself may have
deleted the matched expired session row (the user_sessions list shrinks to
a sublist). -/
theorem claim_C2_amended (predictor : List String → PredResult) (f1 f2 f3 : Bool)
    (calcScore : List QuizRespItem → Int × String) (getRec : Int → String → AssessResult)
    (dbFailQ : Bool) (responses : List QuizRespItem)
    (recommender : FitReq → FitResult) (extRaises dbFailF : Bool)
    (reqP : PredictReq) (reqF : FitReq) (cookie : Cookie) (now : Int) (db : DB)
    (hok : (check_auth cookie now db).ok = false) :
    (predict_disease predictor f1 f2 f3 cookie now reqP db).resp = ⟨401, "Not authenticated"⟩ ∧
    (predict_disease predictor f1 f2 f3 cookie now reqP db).db = (check_auth cookie now db).db ∧
    (submit_mental_health_quiz calcScore getRec dbFailQ cookie now responses db).resp
      = ⟨401, "Not authenticated"⟩ ∧
    (submit_mental_health_quiz calcScore getRec dbFailQ cookie now responses db).db
      = (check_auth cookie now db).db ∧
    (get_fitness_recommendations recommender extRaises dbFailF cookie now reqF db).resp
      = ⟨401, "Not authenticated"⟩ ∧
    (get_fitness_recommendations recommender extRaises dbFailF cookie now reqF db).db
      = (check_auth cookie now db).db ∧
    (check_auth cookie now db).db.users = db.users ∧
    (check_auth cookie now db).db.physical_health_inputs = db.physical_health_inputs ∧
    (check_auth cookie now db).db.disease_predictions = db.disease_predictions ∧
    (check_auth cookie now db).db.mental_health_responses = db.mental_health_responses ∧
    (check_auth cookie now db).db.mental_health_assessments = db.mental_health_assessments ∧
    (check_auth cookie now db).db.diet_plans = db.diet_plans ∧
    (check_auth cookie now db).db.exercise_routines = db.exercise_routines ∧
    ((check_auth cookie now db).db.user_sessions).Sublist db.user_sessions := by
  obtain ⟨hp1, hp2⟩ := predict_disease_auth_false predictor f1 f2 f3 cookie now reqP db hok
  obtain ⟨hq1, hq2⟩ := submit_quiz_auth_false calcScore getRec dbFailQ cookie now responses db hok
  obtain ⟨hf1, hf2⟩ := fitness_auth_false recommender extRaises dbFailF cookie now reqF db hok
  have ht := check_auth_tables cookie now db
  exact ⟨hp1, hp2, hq1, hq2, hf1, hf2, ht.1, ht.2.1, ht.2.2.1, ht.2.2.2.1,
    ht.2.2.2.2.1, ht.2.2.2.2.2.1, ht.2.2.2.2.2.2.1, ht.2.2.2.2.2.2.2⟩

/-- C2 amended witness: an expired-session request at concrete inputs. -/
theorem claim_C2_amended_witness :
    (predict_disease (demoPredictor false) false false false demoCookie 20
      demoPredictReq demoDBExpired).resp = ⟨401, "Not authenticated"⟩ ∧
    (check_auth demoCookie 20 demoDBExpired).db.users = demoDBExpired.users ∧
    ((check_auth demoCookie 20 demoDBExpired).db.user_sessions).Sublist
      demoDBExpired.user_sessions := by
  have h := claim_C2_amended (demoPredictor false) false false false demoCalcScore demoGetRec
    false demoResponses demoRecommender false false demoPredictReq demoFitReq demoCookie 20
    demoDBExpired rfl
  exact ⟨h.1, h.2.2.2.2.2.2.1, h.2.2.2.2.2.2.2.2.2.2.2.2.2⟩


/-- C1 counterexample: for a concrete authenticated submit-quiz request
that succeeds end to end, the claimed effect order (auth check, payload
write, external call, result write, response) does not hold: the external
service calls happen before any table write. -/
theorem claim_C1_counterexample :
    ¬ claimedOrder "mental_health_responses" "mental_health_assessments"
      (submit_mental_health_quiz demoCalcScore demoGetRec false demoCookie 100
        demoResponses demoDB).tr := by
  unfold claimedOrder fidx
  decide

/-- C1 amended: predict-disease follows the spec order (auth check, then
the payload write to physical_health_inputs, then the predictor call, then
the result write to disease_predictions, then the response); submit-quiz
and fitness-recommendations instead perform every external service call
before any table write: their traces start with a passed auth check, have
an external call before every write and no write before any external
call, and end with the 200 response, and the fitness endpoint writes only
the result tables diet_plans and exercise_routines, never the request
payload. -/
theorem claim_C1_amended (predictor : List String → PredResult)
    (calcScore : List QuizRespItem → Int × String) (getRec : Int → String → AssessResult)
    (recommender : FitReq → FitResult) (cookie : Cookie) (now : Int)
    (reqP : PredictReq) (responses : List QuizRespItem) (reqF : FitReq) (db : DB)
    (hok : (check_auth cookie now db).ok = true)
    (herr : (predictor (normalizeSymptoms reqP.symptoms)).hasError = false) :
    claimedOrder "physical_health_inputs" "disease_predictions"
      (predict_disease predictor false false false cookie now reqP db).tr ∧
    (extBeforeWrite (submit_mental_health_quiz calcScore getRec false cookie now
        responses db).tr = true ∧
      writeBeforeExt (submit_mental_health_quiz calcScore getRec false cookie now
        responses db).tr = false ∧
      (submit_mental_health_quiz calcScore getRec false cookie now responses db).tr.head?
        = some (Ev.authCheck true) ∧
      (∃ pre, (submit_mental_health_quiz calcScore getRec false cookie now responses db).tr
        = pre ++ [Ev.respond 200])) ∧
    (extBeforeWrite (get_fitness_recommendations recommender false false cookie now
        reqF db).tr = true ∧
      writeBeforeExt (get_fitness_recommendations recommender false false cookie now
        reqF db).tr = false ∧
      (get_fitness_recommendations recommender false false cookie now reqF db).tr.head?
        = some (Ev.authCheck true) ∧
      (∃ pre, (get_fitness_recommendations recommender false false cookie now reqF db).tr
        = pre ++ [Ev.respond 200]) ∧
      (∀ t, Ev.dbWrite t ∈ (get_fitness_recommendations recommender false false cookie now
          reqF db).tr → t = "diet_plans" ∨ t = "exercise_routines")) := by
  have hptr := predict_disease_success_tr predictor cookie now reqP db hok herr
  have hqtr := submit_quiz_success_tr calcScore getRec cookie now responses db hok
  have hftr := fitness_success_tr recommender cookie now reqF db hok
  refine ⟨?_, ⟨?_, ?_, ?_, ?_⟩, ⟨?_, ?_, ?_, ?_, ?_⟩⟩
  · rw [hptr]
    unfold claimedOrder fidx
    decide
  · rw [hqtr]
    simp only [extBeforeWrite, extBeforeWriteAux, Bool.false_or]
    rw [extBeforeWriteAux_true]
    simp [isWriteEv]
  · rw [hqtr]
    simp only [writeBeforeExt, writeBeforeExtAux, Bool.false_or]
    apply writeBeforeExtAux_no_ext
    intro e he
    rcases List.mem_append.1 he with h | h
    · rcases List.mem_map.1 h with ⟨r, _, rfl⟩
      rfl
    · simp at h
      rcases h with rfl | rfl | rfl <;> rfl
  · rw [hqtr]
    rfl
  · refine ⟨Ev.authCheck true :: Ev.dbOpen :: Ev.dbClose ::
      Ev.extCall "calculate_mental_health_score" ::
      Ev.extCall "get_mental_health_recommendations" :: Ev.dbOpen ::
      (responses.map (fun _ => Ev.dbWrite "mental_health_responses") ++
        [Ev.dbWrite "mental_health_assessments", Ev.dbClose]), ?_⟩
    rw [hqtr]
    simp
  · rw [hftr]
    decide
  · rw [hftr]
    decide
  · rw [hftr]
    rfl
  · refine ⟨[Ev.authCheck true, Ev.dbOpen, Ev.dbClose, Ev.extCall "fitness_recommender",
      Ev.dbOpen, Ev.dbWrite "diet_plans", Ev.dbWrite "exercise_routines", Ev.dbClose], ?_⟩
    rw [hftr]
    rfl
  · intro t ht
    rw [hftr] at ht
    simp at ht
    exact ht


/-- C1 amended witness: the three endpoint traces at concrete inputs. -/
theorem claim_C1_amended_witness :
    claimedOrder "physical_health_inputs" "disease_predictions"
      (predict_disease (demoPredictor false) false false false demoCookie 100
        demoPredictReq demoDB).tr ∧
    extBeforeWrite (submit_mental_health_quiz demoCalcScore demoGetRec false demoCookie 100
      demoResponses demoDB).tr = true ∧
    writeBeforeExt (get_fitness_recommendations demoRecommender false false demoCookie 100
      demoFitReq demoDB).tr = false := by
  have h := claim_C1_amended (demoPredictor false) demoCalcScore demoGetRec demoRecommender
    demoCookie 100 demoPredictReq demoResponses demoFitReq demoDB rfl rfl
  exact ⟨h.1, h.2.1.1, h.2.2.2.1⟩

/-- C6: every database connection opened by a handler or by execute_query
is closed again before the handler returns, on the success path and on
every modelled error path: every trace contains as many dbOpen events as
dbClose events. -/
theorem claim_C6 :
    (∀ (ops : List Ev) (raises : Bool),
      ops.countP isOpenEv = ops.countP isCloseEv →
      balanced (execute_query ops raises)) ∧
    (∀ hashFn req db, balanced (register hashFn req db).tr) ∧
    (∀ checkHash token now cookie req db,
      balanced (login checkHash token now cookie req db).tr) ∧
    (∀ dbFail cookie db, balanced (logout dbFail cookie db).tr) ∧
    (∀ cookie now db, balanced (check_auth cookie now db).tr) ∧
    (∀ predictor f1 f2 f3 cookie now req db,
      balanced (predict_disease predictor f1 f2 f3 cookie now req db).tr) ∧
    (∀ calcScore getRec dbFail cookie now responses db,
      balanced (submit_mental_health_quiz calcScore getRec dbFail cookie now responses db).tr) ∧
    (∀ recommender extRaises dbFail cookie now req db,
      balanced (get_fitness_recommendations recommender extRaises dbFail cookie now req db).tr) := by
  refine ⟨?_, register_tr_balanced, login_tr_balanced, logout_tr_balanced,
    check_auth_tr_balanced, predict_tr_balanced, quiz_tr_balanced, fitness_tr_balanced⟩
  intro ops raises h
  unfold balanced execute_query
  cases raises <;>
    simp [List.countP_append, List.countP_cons, isOpenEv, isCloseEv, h]

/-- C6 witness: the execute_query part at a concrete statement, plus a
concrete handler trace. -/
theorem claim_C6_witness :
    balanced (execute_query [Ev.dbWrite "users"] false) ∧
    balanced (predict_disease (demoPredictor false) false true false demoCookie 100
      demoPredictReq demoDB).tr := by
  exact ⟨claim_C6.1 [Ev.dbWrite "users"] false (by decide),
    claim_C6.2.2.2.2.2.1 (demoPredictor false) false true false demoCookie 100
      demoPredictReq demoDB⟩

end HealthApp
